import Mathlib

/-
Shallow embedding of `src/engine/reciprocity_engine.py` (class
ReciprocalTruthEnforcer).  Python dicts become ordered association lists
(insertion order preserved, update-in-place like `dict.__setitem__`); the
`known_users` set becomes a duplicate-free list; machine nondeterminism
(wall-clock timestamps, `hashlib.sha256`, the randomized builtin `hash` used
for artifact ids) is threaded in as explicit oracle parameters: operations
that read the clock take a `now : String` / `today : Date` argument, the
sha256 hex digest is an arbitrary function `H : String → String`, and the
fresh artifact id produced inside `ingest` is passed in directly.
Exceptions become `Except` results; Python mutations performed before a
`raise` are reflected in the returned state.
-/

namespace ReciprocalTruth

/-- Calendar date, the result of `datetime.fromisoformat(...).date()`. -/
structure Date where
  year : Nat
  month : Nat
  day : Nat
deriving DecidableEq, Repr

/-- Strict comparison of dates (`date.__lt__`: lexicographic on
year, month, day). -/
def dateLt (a b : Date) : Bool :=
  decide (a.year < b.year) ||
    (decide (a.year = b.year) &&
      (decide (a.month < b.month) ||
        (decide (a.month = b.month) && decide (a.day < b.day))))

/-- Gregorian leap year test, as `calendar.isleap` / `datetime`. -/
def isLeapYear (y : Nat) : Bool :=
  (y % 4 == 0 && y % 100 != 0) || y % 400 == 0

/-- Number of days in a month of the proleptic Gregorian calendar. -/
def daysInMonth (y m : Nat) : Nat :=
  if m = 2 then (if isLeapYear y then 29 else 28)
  else if m = 4 ∨ m = 6 ∨ m = 9 ∨ m = 11 then 30
  else 31

/-- Numeric value of a decimal digit character. -/
def digitVal (c : Char) : Nat := c.toNat - 48

/-- Numeric value of a run of decimal digit characters. -/
def digitsVal (l : List Char) : Nat := l.foldl (fun a c => a * 10 + digitVal c) 0

/-- `_parse_isoformat_date` on the first ten characters: exactly
`YYYY-MM-DD` with decimal digits (the C accelerator rejects signs and
whitespace that bare `int()` would take), combined with the `datetime`
constructor's range validation: year ≥ 1, month 1–12, day within the
month. -/
def parseDate10 : List Char → Option Date
  | [y1, y2, y3, y4, s1, m1, m2, s2, d1, d2] =>
    if y1.isDigit && y2.isDigit && y3.isDigit && y4.isDigit && s1 == '-' &&
        m1.isDigit && m2.isDigit && s2 == '-' && d1.isDigit && d2.isDigit then
      let y := ((digitVal y1 * 10 + digitVal y2) * 10 + digitVal y3) * 10 + digitVal y4
      let m := digitVal m1 * 10 + digitVal m2
      let d := digitVal d1 * 10 + digitVal d2
      if 1 ≤ y && 1 ≤ m && m ≤ 12 && 1 ≤ d && d ≤ daysInMonth y m then
        some ⟨y, m, d⟩
      else none
    else none
  | _ => none

/-- `_parse_hh_mm_ss_ff`: the time grammar `HH[:MM[:SS[.fff[fff]]]]`
(components must be complete two-digit pairs; a fractional part needs
exactly three or six digits), returning (hour, minute, second,
microsecond) without range checks — those live in the callers. -/
def parseHMSF : List Char → Option (Nat × Nat × Nat × Nat)
  | h1 :: h2 :: rest =>
    if h1.isDigit && h2.isDigit then
      let hh := digitVal h1 * 10 + digitVal h2
      match rest with
      | [] => some (hh, 0, 0, 0)
      | c1 :: m1 :: m2 :: rest2 =>
        if c1 == ':' && m1.isDigit && m2.isDigit then
          let mm := digitVal m1 * 10 + digitVal m2
          match rest2 with
          | [] => some (hh, mm, 0, 0)
          | c2 :: s1 :: s2 :: rest3 =>
            if c2 == ':' && s1.isDigit && s2.isDigit then
              let ss := digitVal s1 * 10 + digitVal s2
              match rest3 with
              | [] => some (hh, mm, ss, 0)
              | dot :: frac =>
                if dot == '.' && frac.all (fun c => c.isDigit) then
                  if frac.length = 3 then some (hh, mm, ss, digitsVal frac * 1000)
                  else if frac.length = 6 then some (hh, mm, ss, digitsVal frac)
                  else none
                else none
            else none
          | _ => none
        else none
      | _ => none
    else none
  | _ => none

/-- `_parse_isoformat_time` plus the later range validation whose
`ValueError`s the engine's `except` also swallows: the text is split at the
first `-` (else first `+`) into a time and a zone offset; the time's hour,
minute and second are range-checked by the `datetime` constructor; the
offset text must be exactly `HH:MM`, `HH:MM:SS` or `HH:MM:SS.ffffff`
(lengths 5, 8, 15) and `timezone` requires the offset magnitude to stay
strictly under 24 hours. -/
def parseIsoTime (l : List Char) : Bool :=
  if l.length < 2 then false
  else
    match (match l.findIdx? (fun c => c == '-') with
      | some i => some i
      | none => l.findIdx? (fun c => c == '+')) with
    | none =>
      match parseHMSF l with
      | some (hh, mm, ss, _) =>
        decide (hh ≤ 23) && decide (mm ≤ 59) && decide (ss ≤ 59)
      | none => false
    | some i =>
      match parseHMSF (l.take i) with
      | none => false
      | some (hh, mm, ss, _) =>
        if hh ≤ 23 ∧ mm ≤ 59 ∧ ss ≤ 59 then
          let tzstr := l.drop (i + 1)
          if tzstr.length = 5 ∨ tzstr.length = 8 ∨ tzstr.length = 15 then
            match parseHMSF tzstr with
            | some (th, tm, ts, tus) =>
              decide ((th * 3600 + tm * 60 + ts) * 1000000 + tus < 86400000000)
            | none => false
          else false
        else false

/-- Model of `datetime.fromisoformat(s).date()` for CPython 3.7–3.10:
characters 0–9 must be a valid `YYYY-MM-DD`; a ten-character string is a
bare date; character 10 is a separator that may be anything (the engine has
already removed `'T'`-separated tails, but e.g. a space separator reaches
this parser intact); the remainder from character 11 on must be a valid
time with optional zone offset, and an eleven-character string (separator
with nothing after it) fails.  `none` models a `ValueError` from parsing or
from the constructor range checks — all swallowed by the engine.  The
3.11+ extensions (compact `YYYYMMDD`, `Z` suffix, other fraction lengths)
are not modelled. -/
def parseIsoDate (str : String) : Option Date :=
  let cs := str.toList
  match parseDate10 (cs.take 10) with
  | none => none
  | some d =>
    if cs.length = 10 then some d
    else if cs.length = 11 then none
    else if parseIsoTime (cs.drop 11) then some d else none

/-- `expires.split('T')[0]`: the text before the first 'T'. -/
def datePortion (e : String) : String :=
  String.mk (e.toList.takeWhile (fun ch => ch != 'T'))

/-- Per-user consent dictionary
`{"extractive": bool, "expires": str|None, "scope": list[str]}`;
key insertion order is fixed (extractive, expires, scope) at every site
that builds it, which the receipt serialization below relies on. -/
structure ConsentState where
  extractive : Bool
  expires : Option String
  scope : List String
deriving DecidableEq, Repr

/-- The default consent installed by `register_user`. -/
def defaultConsent : ConsentState := ⟨false, none, []⟩

/-- One element of a user's receipt history:
`{"timestamp": str, "receipt": str, "snapshot": dict}`. -/
structure ReceiptRecord where
  timestamp : String
  receipt : String
  snapshot : ConsentState
deriving DecidableEq, Repr

/-- One element of the global anchor: `{"receipt": str, "timestamp": str}`. -/
structure AnchorEntry where
  receipt : String
  timestamp : String
deriving DecidableEq, Repr

/-- One element of the reuse log:
`{"artifact_id": str, "disclosed": bool, "timestamp": str}`. -/
structure ReuseLogEntry where
  artifact_id : String
  disclosed : Bool
  timestamp : String
deriving DecidableEq, Repr

/-- The whole mutable store of a `ReciprocalTruthEnforcer` instance. -/
structure EngineState where
  consent : List (String × ConsentState)
  receipts : List (String × List ReceiptRecord)
  receipt_anchor : List AnchorEntry
  attribution : List (String × List String)
  artifact_state : List (String × String)
  reuse_log : List ReuseLogEntry
  known_users : List String
  extractive_ingests : Nat
  published_count : Nat
deriving DecidableEq, Repr

/-- `__init__`: every container empty, both counters zero. -/
def initState : EngineState := ⟨[], [], [], [], [], [], [], 0, 0⟩

/-- Dict read `m.get(k)` / `m[k]` on an association list. -/
def lookupKey {β : Type} (m : List (String × β)) (k : String) : Option β :=
  match m with
  | [] => none
  | (k₁, v) :: rest => if k₁ = k then some v else lookupKey rest k

/-- Dict write `m[k] = v`: replaces the value in place if the key exists,
appends at the end otherwise (Python insertion-order semantics). -/
def setKey {β : Type} (m : List (String × β)) (k : String) (v : β) :
    List (String × β) :=
  match m with
  | [] => [(k, v)]
  | (k₁, v₁) :: rest => if k₁ = k then (k, v) :: rest else (k₁, v₁) :: setKey rest k v

/-- `set.add` on the duplicate-free list modelling `known_users`. -/
def addUser (l : List String) (uid : String) : List String :=
  if uid ∈ l then l else l ++ [uid]

/-- `register_user`. -/
def register_user (s : EngineState) (uid : String) : EngineState :=
  let s := { s with known_users := addUser s.known_users uid }
  let s :=
    match lookupKey s.consent uid with
    | some _ => s
    | none => { s with consent := setKey s.consent uid defaultConsent }
  match lookupKey s.receipts uid with
  | some _ => s
  | none => { s with receipts := setKey s.receipts uid [] }

/-- Python `str` of a bool. -/
def pyStrBool (b : Bool) : String := if b then "True" else "False"

/-- Python `repr` of one of the engine's strings (assumes the content needs
no escaping, which holds for the plain identifiers and scope names the
engine handles). -/
def pyRepr (str : String) : String := "\x27" ++ str ++ "\x27"

/-- Python `str` of `str|None`. -/
def pyStrOptStr : Option String → String
  | none => "None"
  | some str => pyRepr str

/-- Python `str` of a list of strings. -/
def pyStrListStr (l : List String) : String :=
  "[" ++ String.intercalate ", " (l.map pyRepr) ++ "]"

/-- Python `str` of the consent dict: key order is the fixed insertion order
extractive, expires, scope. -/
def pyStrConsent (c : ConsentState) : String :=
  "\x7b\x27extractive\x27: " ++ pyStrBool c.extractive ++
    ", \x27expires\x27: " ++ pyStrOptStr c.expires ++
    ", \x27scope\x27: " ++ pyStrListStr c.scope ++ "\x7d"

/-- The payload hashed by `_generate_consent_receipt`:
`f"{user_id}|{str(consent_obj)}"`. -/
def receiptPayload (uid : String) (c : ConsentState) : String :=
  uid ++ "|" ++ pyStrConsent c

/-- `_generate_consent_receipt`, parametrized by the sha256 hex digest `H`
and the current timestamp.  Python indexes `self.consent[user_id]` and
`self.receipts[user_id]` directly; every caller registers the user first,
and the `getD` defaults are never reached from those call sites. -/
def generate_consent_receipt (H : String → String) (s : EngineState)
    (uid : String) (now : String) : EngineState × String :=
  let consent_obj := (lookupKey s.consent uid).getD defaultConsent
  let receipt := H (receiptPayload uid consent_obj)
  let record : ReceiptRecord := ⟨now, receipt, consent_obj⟩
  let s := { s with
    receipts := setKey s.receipts uid ((lookupKey s.receipts uid).getD [] ++ [record]) }
  let s := { s with receipt_anchor := s.receipt_anchor ++ [⟨receipt, now⟩] }
  (s, receipt)

/-- `set_consent` (the Python `scope=None` default becomes `[]`). -/
def set_consent (H : String → String) (s : EngineState) (uid : String)
    (extractive : Bool) (expires : Option String) (scope : Option (List String))
    (now : String) : EngineState × String :=
  let s := register_user s uid
  let scope := scope.getD []
  let s := { s with consent := setKey s.consent uid ⟨extractive, expires, scope⟩ }
  generate_consent_receipt H s uid now

/-- `revoke_consent`: mutates only the `extractive` field in place. -/
def revoke_consent (H : String → String) (s : EngineState) (uid : String)
    (now : String) : EngineState × String :=
  let s := register_user s uid
  let s :=
    match lookupKey s.consent uid with
    | some c => { s with consent := setKey s.consent uid { c with extractive := false } }
    | none => s
  generate_consent_receipt H s uid now

/-- `get_latest_receipt`. -/
def get_latest_receipt (s : EngineState) (uid : String) : Option String :=
  match lookupKey s.receipts uid with
  | none => none
  | some l => l.getLast?.map (fun r => r.receipt)

/-- `get_consent_history`. -/
def get_consent_history (s : EngineState) (uid : String) : List ReceiptRecord :=
  (lookupKey s.receipts uid).getD []

/-- `is_active_extractive`, parametrized by `date.today()`.  Mirrors the
Python control flow: unknown user → False; `extractive` falsy → False;
`expires` falsy (None or empty string) skips the expiry check; a
`ValueError` from date parsing is swallowed (fail-open). -/
def is_active_extractive (s : EngineState) (today : Date) (uid : String) : Bool :=
  match lookupKey s.consent uid with
  | none => false
  | some c =>
    if c.extractive = false then false
    else
      match c.expires with
      | none => true
      | some e =>
        if e = "" then true
        else
          match parseIsoDate (datePortion e) with
          | none => true
          | some expiry_date => if dateLt expiry_date today then false else true

/-- The two `PermissionError` raises inside `ingest`, distinguished by
their message. -/
inductive PermissionDenied where
  | consentRequired
  | scopeNotGranted
deriving DecidableEq, Repr

/-- The dict returned by a successful `ingest`. -/
structure IngestResult where
  status : String
  artifact_id : Option String
deriving DecidableEq, Repr

/-- `record_derivative`. -/
def record_derivative (s : EngineState) (artifactId : String) (originUser : String) :
    EngineState :=
  let lst := (lookupKey s.attribution artifactId).getD []
  let lst := if originUser ∈ lst then lst else lst ++ [originUser]
  { s with attribution := setKey s.attribution artifactId lst }

/-- `ingest`.  The freshly generated artifact id
(`f"artifact_{hash(str(payload) + str(datetime.utcnow()))}"`, which depends
on the randomized builtin `hash` and the wall clock) is passed in as the
oracle `artifactId`; the payload itself is consumed only by that id
computation and so does not appear.  The returned state keeps the mutations
made before a raise (registration). -/
def ingest (s : EngineState) (uid : String) (extractive : Bool)
    (requiredScopes : Option (List String)) (artifactId : String) (today : Date) :
    EngineState × Except PermissionDenied IngestResult :=
  let s := register_user s uid
  let req := requiredScopes.getD []
  let enforcement : Option PermissionDenied :=
    if extractive = true ∨ req ≠ [] then
      if is_active_extractive s today uid = false then
        some PermissionDenied.consentRequired
      else if req ≠ [] ∧
          ¬ (∀ r ∈ req, r ∈ ((lookupKey s.consent uid).getD defaultConsent).scope) then
        some PermissionDenied.scopeNotGranted
      else none
    else none
  match enforcement with
  | some e => (s, Except.error e)
  | none =>
    if extractive then
      let s := { s with extractive_ingests := s.extractive_ingests + 1 }
      let s := record_derivative s artifactId uid
      let s := { s with artifact_state := setKey s.artifact_state artifactId "generated" }
      (s, Except.ok ⟨"Processed", some artifactId⟩)
    else
      (s, Except.ok ⟨"Processed", none⟩)

/-- The two `ValueError` raises inside `transition_artifact_state`. -/
inductive InvalidState where
  | artifactNotFound
  | invalidTransition
deriving DecidableEq, Repr

/-- The `valid_transitions` table (with the `.get(current, [])` default). -/
def valid_transitions (current : String) : List String :=
  if current = "generated" then ["used", "archived"]
  else if current = "used" then ["published", "archived"]
  else if current = "published" then ["archived"]
  else if current = "archived" then []
  else []

/-- `transition_artifact_state`.  Raises happen before any mutation, so an
error leaves the state unchanged (the caller keeps `s`). -/
def transition_artifact_state (s : EngineState) (artifactId : String)
    (newState : String) : Except InvalidState EngineState :=
  match lookupKey s.artifact_state artifactId with
  | none => Except.error InvalidState.artifactNotFound
  | some current =>
    if newState ∉ valid_transitions current then
      Except.error InvalidState.invalidTransition
    else
      let s :=
        if newState = "published" then
          { s with published_count := s.published_count + 1 }
        else s
      Except.ok { s with artifact_state := setKey s.artifact_state artifactId newState }

/-- `log_reuse`, parametrized by the current timestamp. -/
def log_reuse (s : EngineState) (artifactId : String) (disclosed : Bool)
    (now : String) : EngineState :=
  let s :=
    match lookupKey s.artifact_state artifactId with
    | some st =>
      if st = "generated" ∨ st = "used" then
        { s with artifact_state := setKey s.artifact_state artifactId "used" }
      else s
    | none => s
  { s with reuse_log := s.reuse_log ++ [⟨artifactId, disclosed, now⟩] }

/-- Python `round(x, 4)` on the exact rationals these ratios are
(half-to-even on binary floats agrees with nearest rounding at every value
reasoned about here; exact 5·10⁻⁵ ties do not arise). -/
def round4 (q : ℚ) : ℚ := ((round (q * 10000) : ℤ) : ℚ) / 10000

/-- The `state_counts` breakdown computed inside `audit`. -/
structure StateCounts where
  generated : Nat
  used : Nat
  published : Nat
  archived : Nat
deriving DecidableEq, Repr

/-- The report dict returned by `audit`. -/
structure AuditReport where
  rim1 : ℚ
  rim2 : ℚ
  rim3 : ℚ
  rim4 : ℚ
  rim5 : ℚ
  rim6 : ℚ
  total_users : Nat
  active_consenting_users : Nat
  extractive_ingests : Nat
  ever_published_artifacts : Nat
  attributed_artifacts : Nat
  total_reuses : Nat
  silent_reuses : Nat
  artifact_states : StateCounts
  total_receipts_issued : Nat
  anchored_receipts : Nat
deriving DecidableEq, Repr

/-- Number of artifacts currently in state `st`. -/
def countState (s : EngineState) (st : String) : Nat :=
  (s.artifact_state.filter (fun p => p.2 = st)).length

/-- Sum of all users' receipt-history lengths
(`sum(len(v) for v in self.receipts.values())`). -/
def totalReceipts (s : EngineState) : Nat :=
  (s.receipts.map (fun p => p.2.length)).sum

/-- `audit`, parametrized by `date.today()` (used transitively through
`is_active_extractive`).  Python indexes `self.consent[uid]` directly in the
RIM-4/RIM-5 comprehensions; the `and` short-circuit after
`is_active_extractive(uid)` (true only for keys of `consent`) makes the
`getD` default unreachable. -/
def audit (s : EngineState) (today : Date) : AuditReport :=
  let total_users := s.known_users.length
  let active_consenting :=
    (s.known_users.filter (fun uid => is_active_extractive s today uid)).length
  let rim1 : ℚ :=
    if total_users > 0 then round4 ((active_consenting : ℚ) / (total_users : ℚ)) else 0
  let attributed := s.attribution.length
  let rim2 : ℚ :=
    if s.extractive_ingests > 0 then
      round4 ((attributed : ℚ) / (s.extractive_ingests : ℚ))
    else 0
  let total_reuses := s.reuse_log.length
  let silent_reuses := (s.reuse_log.filter (fun r => r.disclosed = false)).length
  let disclosed_rate : ℚ :=
    if total_reuses > 0 then
      ((total_reuses - silent_reuses : Nat) : ℚ) / (total_reuses : ℚ)
    else 1
  let rim3 := round4 disclosed_rate
  let exp_count :=
    (s.known_users.filter (fun uid =>
      is_active_extractive s today uid &&
        ((lookupKey s.consent uid).getD defaultConsent).expires.isSome)).length
  let rim4 : ℚ :=
    if active_consenting > 0 then
      round4 ((exp_count : ℚ) / (active_consenting : ℚ))
    else 0
  let scope_count :=
    (s.known_users.filter (fun uid =>
      is_active_extractive s today uid &&
        decide (((lookupKey s.consent uid).getD defaultConsent).scope.length > 0))).length
  let rim5 : ℚ :=
    if active_consenting > 0 then
      round4 ((scope_count : ℚ) / (active_consenting : ℚ))
    else 0
  let total_generated := s.extractive_ingests
  let rim6 : ℚ :=
    if total_generated > 0 then
      round4 ((s.published_count : ℚ) / (total_generated : ℚ))
    else 0
  { rim1 := rim1, rim2 := rim2, rim3 := rim3, rim4 := rim4, rim5 := rim5, rim6 := rim6
    total_users := total_users
    active_consenting_users := active_consenting
    extractive_ingests := s.extractive_ingests
    ever_published_artifacts := s.published_count
    attributed_artifacts := attributed
    total_reuses := total_reuses
    silent_reuses := silent_reuses
    artifact_states :=
      ⟨countState s "generated", countState s "used",
        countState s "published", countState s "archived"⟩
    total_receipts_issued := totalReceipts s
    anchored_receipts := s.receipt_anchor.length }

/-- One public operation of the engine, with its nondeterminism oracles
(timestamps, today's date, the fresh artifact id) carried as data.  Pure
reads (`get_latest_receipt`, `get_consent_history`, `is_active_extractive`,
`audit`) do not mutate and are omitted; `record_derivative` is included even
though the spec treats it as internal. -/
inductive Op where
  | registerUser (uid : String)
  | setConsent (uid : String) (extractive : Bool) (expires : Option String)
      (scope : Option (List String)) (now : String)
  | revokeConsent (uid : String) (now : String)
  | ingest (uid : String) (extractive : Bool) (requiredScopes : Option (List String))
      (artifactId : String) (today : Date)
  | transitionArtifactState (artifactId : String) (newState : String)
  | logReuse (artifactId : String) (disclosed : Bool) (now : String)
  | recordDerivative (artifactId : String) (originUser : String)

/-- Effect of one public operation on the store.  A raising call leaves
exactly the mutations the Python method made before the raise. -/
def runOp (H : String → String) (s : EngineState) : Op → EngineState
  | Op.registerUser uid => register_user s uid
  | Op.setConsent uid e ex sc now => (set_consent H s uid e ex sc now).1
  | Op.revokeConsent uid now => (revoke_consent H s uid now).1
  | Op.ingest uid e req aid today => (ingest s uid e req aid today).1
  | Op.transitionArtifactState aid ns =>
    match transition_artifact_state s aid ns with
    | Except.ok s₁ => s₁
    | Except.error _ => s
  | Op.logReuse aid d now => log_reuse s aid d now
  | Op.recordDerivative aid uid => record_derivative s aid uid

/-- Effect of a sequence of public operations, first to last. -/
def runOps (H : String → String) (s : EngineState) : List Op → EngineState
  | [] => s
  | op :: rest => runOps H (runOp H s op) rest

instance {ε α : Type} [DecidableEq ε] [DecidableEq α] : DecidableEq (Except ε α) :=
  fun a b =>
    match a, b with
    | Except.ok x, Except.ok y =>
      if h : x = y then isTrue (by rw [h]) else
        isFalse (fun he => h (by cases he; rfl))
    | Except.error x, Except.error y =>
      if h : x = y then isTrue (by rw [h]) else
        isFalse (fun he => h (by cases he; rfl))
    | Except.ok _, Except.error _ => isFalse (fun he => by cases he)
    | Except.error _, Except.ok _ => isFalse (fun he => by cases he)

/-! ### Association-list and set helper lemmas -/

theorem lookupKey_setKey {β : Type} (m : List (String × β)) (k k' : String) (v : β) :
    lookupKey (setKey m k v) k' = if k = k' then some v else lookupKey m k' := by
  induction m with
  | nil => simp [setKey, lookupKey]
  | cons p rest ih =>
    obtain ⟨k₁, v₁⟩ := p
    by_cases h : k₁ = k
    · subst h
      by_cases h' : k₁ = k' <;> simp [setKey, lookupKey, h']
    · by_cases h' : k₁ = k'
      · subst h'
        have hk' : ¬ k = k₁ := fun he => h he.symm
        simp [setKey, lookupKey, h, hk']
      · simp [setKey, lookupKey, h, h', ih]

theorem mem_addUser (l : List String) (uid u : String) :
    u ∈ addUser l uid ↔ u ∈ l ∨ u = uid := by
  by_cases h : uid ∈ l
  · simp only [addUser, if_pos h]
    constructor
    · exact Or.inl
    · rintro (h' | rfl)
      · exact h'
      · exact h
  · simp [addUser, h]

theorem addUser_length_of_not_mem (l : List String) (uid : String) (h : uid ∉ l) :
    (addUser l uid).length = l.length + 1 := by
  simp [addUser, h]

theorem addUser_of_mem (l : List String) (uid : String) (h : uid ∈ l) :
    addUser l uid = l := by
  simp [addUser, h]

/-! ### Frame lemmas: which fields each operation touches -/

theorem register_user_frame (s : EngineState) (uid : String) :
    (register_user s uid).receipt_anchor = s.receipt_anchor ∧
    (register_user s uid).attribution = s.attribution ∧
    (register_user s uid).artifact_state = s.artifact_state ∧
    (register_user s uid).reuse_log = s.reuse_log ∧
    (register_user s uid).extractive_ingests = s.extractive_ingests ∧
    (register_user s uid).published_count = s.published_count := by
  unfold register_user
  dsimp only
  split <;> split <;> simp

theorem register_user_known (s : EngineState) (uid : String) :
    (register_user s uid).known_users = addUser s.known_users uid := by
  unfold register_user
  dsimp only
  split <;> split <;> simp

theorem register_user_consent (s : EngineState) (uid : String) :
    (register_user s uid).consent =
      match lookupKey s.consent uid with
      | some _ => s.consent
      | none => setKey s.consent uid defaultConsent := by
  unfold register_user
  dsimp only
  split <;> split <;> simp_all

theorem register_user_receipts (s : EngineState) (uid : String) :
    (register_user s uid).receipts =
      match lookupKey s.receipts uid with
      | some _ => s.receipts
      | none => setKey s.receipts uid [] := by
  unfold register_user
  dsimp only
  split <;> split <;> simp_all

/-- The receipt record appended by `_generate_consent_receipt`. -/
def freshRecord (H : String → String) (s : EngineState) (uid : String)
    (now : String) : ReceiptRecord :=
  ⟨now, H (receiptPayload uid ((lookupKey s.consent uid).getD defaultConsent)),
    (lookupKey s.consent uid).getD defaultConsent⟩

theorem generate_fields (H : String → String) (s : EngineState) (uid now : String) :
    (generate_consent_receipt H s uid now).1.consent = s.consent ∧
    (generate_consent_receipt H s uid now).1.attribution = s.attribution ∧
    (generate_consent_receipt H s uid now).1.artifact_state = s.artifact_state ∧
    (generate_consent_receipt H s uid now).1.reuse_log = s.reuse_log ∧
    (generate_consent_receipt H s uid now).1.known_users = s.known_users ∧
    (generate_consent_receipt H s uid now).1.extractive_ingests = s.extractive_ingests ∧
    (generate_consent_receipt H s uid now).1.published_count = s.published_count ∧
    (generate_consent_receipt H s uid now).1.receipts =
      setKey s.receipts uid
        ((lookupKey s.receipts uid).getD [] ++ [freshRecord H s uid now]) ∧
    (generate_consent_receipt H s uid now).1.receipt_anchor =
      s.receipt_anchor ++ [⟨(freshRecord H s uid now).receipt, now⟩] :=
  ⟨rfl, rfl, rfl, rfl, rfl, rfl, rfl, rfl, rfl⟩

theorem ingest_error_state (s : EngineState) (uid : String) (extractive : Bool)
    (reqOpt : Option (List String)) (aid : String) (today : Date) (e : PermissionDenied)
    (h : (ingest s uid extractive reqOpt aid today).2 = Except.error e) :
    (ingest s uid extractive reqOpt aid today).1 = register_user s uid := by
  unfold ingest at h ⊢
  dsimp only at h ⊢
  split at h
  · rfl
  · split at h <;> simp_all

theorem ingest_frame (s : EngineState) (uid : String) (extractive : Bool)
    (reqOpt : Option (List String)) (aid : String) (today : Date) :
    (ingest s uid extractive reqOpt aid today).1.consent = (register_user s uid).consent ∧
    (ingest s uid extractive reqOpt aid today).1.receipts = (register_user s uid).receipts ∧
    (ingest s uid extractive reqOpt aid today).1.receipt_anchor = s.receipt_anchor ∧
    (ingest s uid extractive reqOpt aid today).1.reuse_log = s.reuse_log ∧
    (ingest s uid extractive reqOpt aid today).1.known_users =
      (register_user s uid).known_users ∧
    (ingest s uid extractive reqOpt aid today).1.published_count = s.published_count := by
  have hreg := register_user_frame s uid
  unfold ingest
  dsimp only
  split
  · exact ⟨rfl, rfl, hreg.1, hreg.2.2.2.1, rfl, hreg.2.2.2.2.2⟩
  · split
    · exact ⟨rfl, rfl, hreg.1, hreg.2.2.2.1, rfl, hreg.2.2.2.2.2⟩
    · exact ⟨rfl, rfl, hreg.1, hreg.2.2.2.1, rfl, hreg.2.2.2.2.2⟩

theorem record_derivative_frame (s : EngineState) (aid uid : String) :
    (record_derivative s aid uid).consent = s.consent ∧
    (record_derivative s aid uid).receipts = s.receipts ∧
    (record_derivative s aid uid).receipt_anchor = s.receipt_anchor ∧
    (record_derivative s aid uid).artifact_state = s.artifact_state ∧
    (record_derivative s aid uid).reuse_log = s.reuse_log ∧
    (record_derivative s aid uid).known_users = s.known_users ∧
    (record_derivative s aid uid).extractive_ingests = s.extractive_ingests ∧
    (record_derivative s aid uid).published_count = s.published_count :=
  ⟨rfl, rfl, rfl, rfl, rfl, rfl, rfl, rfl⟩

theorem transition_ok_fields (s : EngineState) (aid ns : String) (s₁ : EngineState)
    (h : transition_artifact_state s aid ns = Except.ok s₁) :
    s₁.consent = s.consent ∧ s₁.receipts = s.receipts ∧
    s₁.receipt_anchor = s.receipt_anchor ∧ s₁.attribution = s.attribution ∧
    s₁.reuse_log = s.reuse_log ∧ s₁.known_users = s.known_users ∧
    s₁.extractive_ingests = s.extractive_ingests ∧
    s₁.artifact_state = setKey s.artifact_state aid ns ∧
    (s₁.published_count = s.published_count ∨
      s₁.published_count = s.published_count + 1) := by
  unfold transition_artifact_state at h
  split at h
  · exact absurd h (by simp)
  · split at h
    · exact absurd h (by simp)
    · split at h <;> (injection h with h; subst h; simp)

theorem log_reuse_frame (s : EngineState) (aid : String) (d : Bool) (now : String) :
    (log_reuse s aid d now).consent = s.consent ∧
    (log_reuse s aid d now).receipts = s.receipts ∧
    (log_reuse s aid d now).receipt_anchor = s.receipt_anchor ∧
    (log_reuse s aid d now).attribution = s.attribution ∧
    (log_reuse s aid d now).known_users = s.known_users ∧
    (log_reuse s aid d now).extractive_ingests = s.extractive_ingests ∧
    (log_reuse s aid d now).published_count = s.published_count ∧
    (log_reuse s aid d now).reuse_log = s.reuse_log ++ [⟨aid, d, now⟩] := by
  unfold log_reuse
  dsimp only
  split
  · split <;> simp
  · simp

theorem set_consent_frame (H : String → String) (s : EngineState) (uid : String)
    (e : Bool) (ex : Option String) (sc : Option (List String)) (now : String) :
    (set_consent H s uid e ex sc now).1.attribution = s.attribution ∧
    (set_consent H s uid e ex sc now).1.artifact_state = s.artifact_state ∧
    (set_consent H s uid e ex sc now).1.reuse_log = s.reuse_log ∧
    (set_consent H s uid e ex sc now).1.known_users = addUser s.known_users uid ∧
    (set_consent H s uid e ex sc now).1.extractive_ingests = s.extractive_ingests ∧
    (set_consent H s uid e ex sc now).1.published_count = s.published_count := by
  have hreg := register_user_frame s uid
  have hk := register_user_known s uid
  exact ⟨hreg.2.1, hreg.2.2.1, hreg.2.2.2.1, hk, hreg.2.2.2.2.1, hreg.2.2.2.2.2⟩

theorem revoke_consent_frame (H : String → String) (s : EngineState) (uid now : String) :
    (revoke_consent H s uid now).1.attribution = s.attribution ∧
    (revoke_consent H s uid now).1.artifact_state = s.artifact_state ∧
    (revoke_consent H s uid now).1.reuse_log = s.reuse_log ∧
    (revoke_consent H s uid now).1.known_users = addUser s.known_users uid ∧
    (revoke_consent H s uid now).1.extractive_ingests = s.extractive_ingests ∧
    (revoke_consent H s uid now).1.published_count = s.published_count := by
  have hreg := register_user_frame s uid
  have hk := register_user_known s uid
  unfold revoke_consent
  dsimp only
  split <;>
    exact ⟨hreg.2.1, hreg.2.2.1, hreg.2.2.2.1, hk, hreg.2.2.2.2.1, hreg.2.2.2.2.2⟩

theorem ingest_artifact_state (s : EngineState) (uid : String) (e : Bool)
    (req : Option (List String)) (aid : String) (today : Date) :
    (ingest s uid e req aid today).1.artifact_state = s.artifact_state ∨
      (e = true ∧ (ingest s uid e req aid today).1.artifact_state =
        setKey s.artifact_state aid "generated") := by
  have hreg := register_user_frame s uid
  unfold ingest
  dsimp only
  split
  · exact Or.inl hreg.2.2.1
  · split
    · rename_i he
      exact Or.inr ⟨he, by simp [record_derivative, hreg.2.2.1]⟩
    · exact Or.inl hreg.2.2.1

theorem transition_ok_found (s : EngineState) (aid ns : String) (s₁ : EngineState)
    (h : transition_artifact_state s aid ns = Except.ok s₁) :
    ∃ cur, lookupKey s.artifact_state aid = some cur := by
  unfold transition_artifact_state at h
  split at h
  · cases h
  · rename_i cur hcur
    exact ⟨cur, hcur⟩

theorem log_reuse_artifact_none (s : EngineState) (aid' : String) (d : Bool)
    (now aid : String) (hnone : lookupKey s.artifact_state aid = none) :
    lookupKey (log_reuse s aid' d now).artifact_state aid = none := by
  unfold log_reuse
  dsimp only
  split
  · rename_i st hst
    split
    · simp only [lookupKey_setKey]
      have hne : aid' ≠ aid := by
        intro he
        rw [he, hnone] at hst
        cases hst
      simp [hne, hnone]
    · exact hnone
  · exact hnone

/-- `op` is an `ingest` call that (when admitted) creates artifact `aid`:
an extractive ingestion whose fresh id is `aid`. -/
def createsArtifact (aid : String) : Op → Prop
  | Op.ingest _ extractive _ artifactId _ => extractive = true ∧ artifactId = aid
  | _ => False

theorem artifact_none_step (H : String → String) (s : EngineState) (op : Op)
    (aid : String) (hnone : lookupKey s.artifact_state aid = none)
    (hnc : ¬ createsArtifact aid op) :
    lookupKey (runOp H s op).artifact_state aid = none := by
  cases op with
  | registerUser uid =>
    rw [runOp, (register_user_frame s uid).2.2.1]
    exact hnone
  | setConsent uid e ex sc now =>
    rw [runOp, (set_consent_frame H s uid e ex sc now).2.1]
    exact hnone
  | revokeConsent uid now =>
    rw [runOp, (revoke_consent_frame H s uid now).2.1]
    exact hnone
  | ingest uid e req aid' today =>
    rw [runOp]
    rcases ingest_artifact_state s uid e req aid' today with h | ⟨he, h⟩
    · rw [h]; exact hnone
    · rw [h, lookupKey_setKey]
      have hne : aid' ≠ aid := fun heq => hnc (by rw [createsArtifact]; exact ⟨he, heq⟩)
      simp [hne, hnone]
  | transitionArtifactState aid' ns =>
    rw [runOp]
    cases htr : transition_artifact_state s aid' ns with
    | error e => exact hnone
    | ok s₁ =>
      obtain ⟨cur, hcur⟩ := transition_ok_found s aid' ns s₁ htr
      have hne : aid' ≠ aid := by
        intro he
        rw [he, hnone] at hcur
        cases hcur
      rw [(transition_ok_fields s aid' ns s₁ htr).2.2.2.2.2.2.2.1, lookupKey_setKey]
      simp [hne, hnone]
  | logReuse aid' d now =>
    rw [runOp]
    exact log_reuse_artifact_none s aid' d now aid hnone
  | recordDerivative aid' uid =>
    rw [runOp, (record_derivative_frame s aid' uid).2.2.2.1]
    exact hnone

theorem artifact_none_runOps (H : String → String) (aid : String) :
    ∀ (ops : List Op) (s : EngineState),
      (∀ op ∈ ops, ¬ createsArtifact aid op) →
      lookupKey s.artifact_state aid = none →
      lookupKey (runOps H s ops).artifact_state aid = none
  | [], _, _, hs => hs
  | op :: rest, s, h, hs =>
    artifact_none_runOps H aid rest (runOp H s op)
      (fun o ho => h o (List.mem_cons_of_mem _ ho))
      (artifact_none_step H s op aid hs (h op (List.mem_cons_self _ _)))

/-! ### Claim theorems -/

/-- C4: `transition_artifact_state` raises ArtifactNotFound for every id
without an artifact record — in particular for every id never created by an
extractive ingestion in any run — and raises InvalidTransition exactly when
the requested state is not reachable from the current one under the table
generated→{used,archived}, used→{published,archived}, published→{archived},
archived→{}; a successful transition stores the new state, so the chain
generated→used→published→archived succeeds step by step while
generated→published and anything from archived fail. -/
theorem c4_transition_spec (s : EngineState) (aid ns : String) :
    (lookupKey s.artifact_state aid = none →
      transition_artifact_state s aid ns =
        Except.error InvalidState.artifactNotFound) ∧
    (∀ (H : String → String) (ops : List Op),
      (∀ op ∈ ops, ¬ createsArtifact aid op) →
      transition_artifact_state (runOps H initState ops) aid ns =
        Except.error InvalidState.artifactNotFound) ∧
    (∀ cur, lookupKey s.artifact_state aid = some cur → ns ∉ valid_transitions cur →
      transition_artifact_state s aid ns =
        Except.error InvalidState.invalidTransition) ∧
    (∀ cur, lookupKey s.artifact_state aid = some cur →
      ((∃ s₁, transition_artifact_state s aid ns = Except.ok s₁ ∧
          lookupKey s₁.artifact_state aid = some ns) ↔ ns ∈ valid_transitions cur)) ∧
    (lookupKey s.artifact_state aid = some "generated" →
      transition_artifact_state s aid "published" =
        Except.error InvalidState.invalidTransition) ∧
    (lookupKey s.artifact_state aid = some "archived" →
      transition_artifact_state s aid ns =
        Except.error InvalidState.invalidTransition) := by
  have hnotfound : lookupKey s.artifact_state aid = none →
      transition_artifact_state s aid ns =
        Except.error InvalidState.artifactNotFound := by
    intro h
    simp [transition_artifact_state, h]
  have hinvalid : ∀ cur, lookupKey s.artifact_state aid = some cur →
      ns ∉ valid_transitions cur →
      transition_artifact_state s aid ns =
        Except.error InvalidState.invalidTransition := by
    intro cur hcur hns
    simp [transition_artifact_state, hcur, hns]
  refine ⟨hnotfound, ?_, hinvalid, ?_, ?_, ?_⟩
  · intro H ops h
    have hnone := artifact_none_runOps H aid ops initState h rfl
    simp [transition_artifact_state, hnone]
  · intro cur hcur
    constructor
    · rintro ⟨s₁, hok, -⟩
      by_contra hns
      rw [hinvalid cur hcur hns] at hok
      cases hok
    · intro hns
      cases htr : transition_artifact_state s aid ns with
      | error e =>
        unfold transition_artifact_state at htr
        rw [hcur] at htr
        simp [hns] at htr
      | ok s₁ =>
        refine ⟨s₁, rfl, ?_⟩
        rw [(transition_ok_fields s aid ns s₁ htr).2.2.2.2.2.2.2.1, lookupKey_setKey]
        simp
  · intro h
    unfold transition_artifact_state
    rw [h]
    simp [valid_transitions]
  · intro h
    unfold transition_artifact_state
    rw [h]
    simp [valid_transitions]

/-- Witness for C4: with one artifact sitting at `generated`, a direct
transition to `published` fails with InvalidTransition. -/
theorem c4_witness :
    transition_artifact_state
      ⟨[], [], [], [], [("a", "generated")], [], [], 1, 0⟩ "a" "published" =
      Except.error InvalidState.invalidTransition :=
  (c4_transition_spec ⟨[], [], [], [], [("a", "generated")], [], [], 1, 0⟩
    "a" "published").2.2.2.2.1 (by decide)

/-- C8: `log_reuse` always appends exactly one ReuseLogEntry (also for
unknown artifact ids) and never fails; a known artifact in `generated` or
`used` is forced to `used`, while `published`/`archived` (and any other)
artifacts are left untouched. -/
theorem c8_log_reuse_spec (s : EngineState) (aid : String) (d : Bool) (now : String) :
    (log_reuse s aid d now).reuse_log = s.reuse_log ++ [⟨aid, d, now⟩] ∧
    (lookupKey s.artifact_state aid = none →
      (log_reuse s aid d now).artifact_state = s.artifact_state) ∧
    (∀ st, lookupKey s.artifact_state aid = some st →
      (st = "generated" ∨ st = "used") →
      lookupKey (log_reuse s aid d now).artifact_state aid = some "used") ∧
    (∀ st, lookupKey s.artifact_state aid = some st →
      ¬ (st = "generated" ∨ st = "used") →
      (log_reuse s aid d now).artifact_state = s.artifact_state) := by
  refine ⟨(log_reuse_frame s aid d now).2.2.2.2.2.2.2, ?_, ?_, ?_⟩
  · intro h
    unfold log_reuse
    rw [h]
  · intro st hst hgu
    unfold log_reuse
    rw [hst]
    dsimp only
    rw [if_pos hgu]
    show lookupKey (setKey s.artifact_state aid "used") aid = some "used"
    rw [lookupKey_setKey]
    simp
  · intro st hst hgu
    unfold log_reuse
    rw [hst]
    dsimp only
    rw [if_neg hgu]

/-- Witness for C8: logging a reuse against a `generated` artifact advances
it to `used`. -/
theorem c8_witness :
    lookupKey (log_reuse
      ⟨[], [], [], [], [("a", "generated")], [], [], 1, 0⟩ "a" false "t").artifact_state
      "a" = some "used" :=
  (c8_log_reuse_spec ⟨[], [], [], [], [("a", "generated")], [], [], 1, 0⟩
    "a" false "t").2.2.1 "generated" (by decide) (Or.inl rfl)

theorem register_user_consent_lookup (s : EngineState) (uid : String) :
    lookupKey (register_user s uid).consent uid =
      some ((lookupKey s.consent uid).getD defaultConsent) := by
  rw [register_user_consent]
  cases hpre : lookupKey s.consent uid with
  | some c0 => simp [hpre]
  | none => simp [lookupKey_setKey]

theorem register_user_receipts_lookup (s : EngineState) (uid : String) :
    lookupKey (register_user s uid).receipts uid =
      some ((lookupKey s.receipts uid).getD []) := by
  rw [register_user_receipts]
  cases hpre : lookupKey s.receipts uid with
  | some l => simp [hpre]
  | none => simp [lookupKey_setKey]

theorem revoke_consent_lookup (H : String → String) (s : EngineState) (uid now : String) :
    lookupKey (revoke_consent H s uid now).1.consent uid =
      some ⟨false, ((lookupKey s.consent uid).getD defaultConsent).expires,
        ((lookupKey s.consent uid).getD defaultConsent).scope⟩ := by
  unfold revoke_consent
  dsimp only
  split
  · rename_i c hc
    rw [register_user_consent_lookup] at hc
    injection hc with hc
    subst hc
    show lookupKey (setKey (register_user s uid).consent uid
      { (lookupKey s.consent uid).getD defaultConsent with extractive := false }) uid = _
    rw [lookupKey_setKey, if_pos rfl]
  · rename_i hc
    rw [register_user_consent_lookup] at hc
    cases hc

/-- C7: immediately after `revoke_consent(userId)`, `is_active_extractive`
is false regardless of prior state, and the stored `expires` and `scope`
fields survive the revocation unchanged. -/
theorem c7_revoke_spec (H : String → String) (s : EngineState) (uid now : String)
    (today : Date) :
    is_active_extractive (revoke_consent H s uid now).1 today uid = false ∧
    (∀ c, lookupKey s.consent uid = some c →
      lookupKey (revoke_consent H s uid now).1.consent uid =
        some ⟨false, c.expires, c.scope⟩) := by
  constructor
  · rw [is_active_extractive, revoke_consent_lookup]
    simp
  · intro c hc
    rw [revoke_consent_lookup, hc]
    rfl

/-- Witness for C7: revoking a fully opted-in user with expiry and scope
leaves both fields in place while `extractive` becomes false. -/
theorem c7_witness :
    is_active_extractive
      (revoke_consent (fun p => p)
        ⟨[("u", ⟨true, some "2030-01-01", ["research"]⟩)],
          [("u", [])], [], [], [], [], ["u"], 0, 0⟩ "u" "t").1
      ⟨2026, 1, 1⟩ "u" = false ∧
    lookupKey
      (revoke_consent (fun p => p)
        ⟨[("u", ⟨true, some "2030-01-01", ["research"]⟩)],
          [("u", [])], [], [], [], [], ["u"], 0, 0⟩ "u" "t").1.consent "u" =
      some ⟨false, some "2030-01-01", ["research"]⟩ :=
  ⟨(c7_revoke_spec (fun p => p)
      ⟨[("u", ⟨true, some "2030-01-01", ["research"]⟩)],
        [("u", [])], [], [], [], [], ["u"], 0, 0⟩ "u" "t" ⟨2026, 1, 1⟩).1,
    (c7_revoke_spec (fun p => p)
      ⟨[("u", ⟨true, some "2030-01-01", ["research"]⟩)],
        [("u", [])], [], [], [], [], ["u"], 0, 0⟩ "u" "t" ⟨2026, 1, 1⟩).2
      ⟨true, some "2030-01-01", ["research"]⟩ (by decide)⟩

theorem is_active_register (s : EngineState) (uid : String) (today : Date) :
    is_active_extractive (register_user s uid) today uid =
      is_active_extractive s today uid := by
  rw [is_active_extractive, is_active_extractive, register_user_consent_lookup]
  cases hpre : lookupKey s.consent uid with
  | some c => rfl
  | none => simp [defaultConsent]

theorem scope_register (s : EngineState) (uid : String) :
    ((lookupKey (register_user s uid).consent uid).getD defaultConsent).scope =
      ((lookupKey s.consent uid).getD defaultConsent).scope := by
  rw [register_user_consent_lookup]
  rfl

theorem ingest_error_iff (s : EngineState) (uid : String) (extractive : Bool)
    (reqOpt : Option (List String)) (aid : String) (today : Date) :
    (∃ e, (ingest s uid extractive reqOpt aid today).2 = Except.error e) ↔
      ((extractive = true ∨ reqOpt.getD [] ≠ []) ∧
        (is_active_extractive (register_user s uid) today uid = false ∨
          (reqOpt.getD [] ≠ [] ∧
            ¬ (∀ r ∈ reqOpt.getD [],
              r ∈ ((lookupKey (register_user s uid).consent uid).getD
                defaultConsent).scope)))) := by
  unfold ingest
  dsimp only
  by_cases hE : extractive = true ∨ reqOpt.getD [] ≠ []
  · rw [if_pos hE]
    by_cases hA : is_active_extractive (register_user s uid) today uid = false
    · rw [if_pos hA]
      simp [hE, hA]
    · rw [if_neg hA]
      by_cases hM : reqOpt.getD [] ≠ [] ∧
          ¬ (∀ r ∈ reqOpt.getD [],
            r ∈ ((lookupKey (register_user s uid).consent uid).getD
              defaultConsent).scope)
      · rw [if_pos hM]
        simp [hE, hM]
      · rw [if_neg hM]
        dsimp only
        split <;>
        · constructor
          · rintro ⟨e, he⟩
            simp at he
          · rintro ⟨-, hA' | hM'⟩
            · exact (hA hA').elim
            · exact (hM hM').elim
  · rw [if_neg hE]
    dsimp only
    split <;> simp [hE]

/-- C1: `ingest` raises PermissionDenied exactly when enforcement applies
(`extractive` true or non-empty `requiredScopes`) and the user either lacks
active extractive consent or misses a required scope; on such a failure no
artifact-state entry is created, no attribution record is created, and
`extractive_ingests` is not incremented. -/
theorem c1_ingest_permission (s : EngineState) (uid : String) (extractive : Bool)
    (reqOpt : Option (List String)) (aid : String) (today : Date) :
    ((∃ e, (ingest s uid extractive reqOpt aid today).2 = Except.error e) ↔
      ((extractive = true ∨ reqOpt.getD [] ≠ []) ∧
        (is_active_extractive s today uid = false ∨
          ∃ r ∈ reqOpt.getD [],
            r ∉ ((lookupKey s.consent uid).getD defaultConsent).scope))) ∧
    (∀ e, (ingest s uid extractive reqOpt aid today).2 = Except.error e →
      (ingest s uid extractive reqOpt aid today).1.artifact_state =
        s.artifact_state ∧
      (ingest s uid extractive reqOpt aid today).1.attribution = s.attribution ∧
      (ingest s uid extractive reqOpt aid today).1.extractive_ingests =
        s.extractive_ingests) := by
  constructor
  · rw [ingest_error_iff, is_active_register, scope_register]
    constructor
    · rintro ⟨hE, hA | ⟨-, hM⟩⟩
      · exact ⟨hE, Or.inl hA⟩
      · push_neg at hM
        exact ⟨hE, Or.inr hM⟩
    · rintro ⟨hE, hA | hM⟩
      · exact ⟨hE, Or.inl hA⟩
      · have hne : reqOpt.getD [] ≠ [] := by
          rcases hM with ⟨r, hr, -⟩
          intro h
          rw [h] at hr
          cases hr
        refine ⟨hE, Or.inr ⟨hne, ?_⟩⟩
        push_neg
        exact hM
  · intro e he
    rw [ingest_error_state s uid extractive reqOpt aid today e he]
    have hreg := register_user_frame s uid
    exact ⟨hreg.2.2.1, hreg.2.1, hreg.2.2.2.2.1⟩

/-- Witness for C1: an extractive ingestion by a brand-new (hence
non-consenting) user is denied and leaves `extractive_ingests` at zero. -/
theorem c1_witness :
    (ingest initState "u" true none "a" ⟨2026, 1, 1⟩).1.extractive_ingests =
      initState.extractive_ingests :=
  ((c1_ingest_permission initState "u" true none "a" ⟨2026, 1, 1⟩).2
    PermissionDenied.consentRequired (by decide)).2.2

theorem audit_rim1 (s : EngineState) (today : Date) :
    (audit s today).rim1 =
      if s.known_users.length > 0 then
        round4
          (((s.known_users.filter
              (fun uid => is_active_extractive s today uid)).length : ℚ) /
            (s.known_users.length : ℚ))
      else 0 := rfl

theorem audit_rim6 (s : EngineState) (today : Date) :
    (audit s today).rim6 =
      if s.extractive_ingests > 0 then
        round4 ((s.published_count : ℚ) / (s.extractive_ingests : ℚ))
      else 0 := rfl

theorem audit_total_users (s : EngineState) (today : Date) :
    (audit s today).total_users = s.known_users.length := rfl

theorem audit_anchored (s : EngineState) (today : Date) :
    (audit s today).anchored_receipts = s.receipt_anchor.length ∧
    (audit s today).total_receipts_issued = totalReceipts s := ⟨rfl, rfl⟩

/-- C9: a PermissionDenied `ingest` still mutates the store, because
registration runs before enforcement: the denied state is exactly
`register_user` of the old state, so the user is now known, a previously
unknown user gets the default ConsentState and an empty receipt history,
`audit`'s total_users grows by one for a fresh user, and RIM-1 can drop. -/
theorem c9_denied_ingest_mutates (s : EngineState) (uid : String) (extractive : Bool)
    (reqOpt : Option (List String)) (aid : String) (today : Date) :
    (∀ e, (ingest s uid extractive reqOpt aid today).2 = Except.error e →
      (ingest s uid extractive reqOpt aid today).1 = register_user s uid) ∧
    uid ∈ (register_user s uid).known_users ∧
    (lookupKey s.consent uid = none →
      lookupKey (register_user s uid).consent uid = some defaultConsent) ∧
    (lookupKey s.receipts uid = none →
      lookupKey (register_user s uid).receipts uid = some []) ∧
    (∀ today₂, uid ∉ s.known_users →
      (audit (register_user s uid) today₂).total_users =
        (audit s today₂).total_users + 1) ∧
    (∃ (s₀ : EngineState) (uid₀ aid₀ : String) (t₀ : Date) (e : PermissionDenied),
      (ingest s₀ uid₀ true none aid₀ t₀).2 = Except.error e ∧
      (audit (ingest s₀ uid₀ true none aid₀ t₀).1 t₀).rim1 < (audit s₀ t₀).rim1) := by
  refine ⟨fun e he => ingest_error_state s uid extractive reqOpt aid today e he,
    ?_, ?_, ?_, ?_, ?_⟩
  · rw [register_user_known]
    exact (mem_addUser _ _ _).mpr (Or.inr rfl)
  · intro h
    rw [register_user_consent_lookup, h]
    rfl
  · intro h
    rw [register_user_receipts_lookup, h]
    rfl
  · intro today₂ h
    rw [audit_total_users, audit_total_users, register_user_known]
    exact addUser_length_of_not_mem _ _ h
  · refine ⟨⟨[("u1", ⟨true, none, []⟩)],
      [("u1", [⟨"t", "", ⟨true, none, []⟩⟩])],
      [⟨"", "t"⟩], [], [], [], ["u1"], 0, 0⟩,
      "u2", "a", ⟨2026, 1, 1⟩, PermissionDenied.consentRequired, rfl, ?_⟩
    have h1 : (ingest ⟨[("u1", ⟨true, none, []⟩)],
        [("u1", [⟨"t", "", ⟨true, none, []⟩⟩])],
        [⟨"", "t"⟩], [], [], [], ["u1"], 0, 0⟩ "u2" true none "a" ⟨2026, 1, 1⟩).1 =
        ⟨[("u1", ⟨true, none, []⟩), ("u2", ⟨false, none, []⟩)],
          [("u1", [⟨"t", "", ⟨true, none, []⟩⟩]), ("u2", [])],
          [⟨"", "t"⟩], [], [], [], ["u1", "u2"], 0, 0⟩ := rfl
    rw [h1, audit_rim1, audit_rim1]
    have hf1 : ((⟨[("u1", ⟨true, none, []⟩), ("u2", ⟨false, none, []⟩)],
        [("u1", [⟨"t", "", ⟨true, none, []⟩⟩]), ("u2", [])],
        [⟨"", "t"⟩], [], [], [], ["u1", "u2"], 0, 0⟩ :
          EngineState).known_users.filter
        (fun uid => is_active_extractive ⟨[("u1", ⟨true, none, []⟩),
          ("u2", ⟨false, none, []⟩)],
          [("u1", [⟨"t", "", ⟨true, none, []⟩⟩]), ("u2", [])],
          [⟨"", "t"⟩], [], [], [], ["u1", "u2"], 0, 0⟩ ⟨2026, 1, 1⟩ uid)).length =
        1 := by decide
    have hf0 : ((⟨[("u1", ⟨true, none, []⟩)],
        [("u1", [⟨"t", "", ⟨true, none, []⟩⟩])],
        [⟨"", "t"⟩], [], [], [], ["u1"], 0, 0⟩ :
          EngineState).known_users.filter
        (fun uid => is_active_extractive ⟨[("u1", ⟨true, none, []⟩)],
          [("u1", [⟨"t", "", ⟨true, none, []⟩⟩])],
          [⟨"", "t"⟩], [], [], [], ["u1"], 0, 0⟩ ⟨2026, 1, 1⟩ uid)).length =
        1 := by decide
    rw [hf1, hf0]
    norm_num [round4, round_eq]

/-- Witness for C9: registering a fresh user through the denied path grows
`total_users` by one. -/
theorem c9_witness :
    (audit (register_user initState "u") ⟨2026, 1, 1⟩).total_users =
      (audit initState ⟨2026, 1, 1⟩).total_users + 1 :=
  (c9_denied_ingest_mutates initState "u" true none "a" ⟨2026, 1, 1⟩).2.2.2.2.1
    ⟨2026, 1, 1⟩ (by decide)

/-- C5: `published_count` grows by exactly one on every successful
transition into `published`, is untouched by every other outcome of every
operation (never decremented, in particular not by archiving), and in the
run with 3 admitted extractive ingestions where 2 artifacts are ever
published (one later archived) `audit` reports RIM-6 = 0.6667. -/
theorem c5_published_count (s : EngineState) (aid ns : String) :
    (∀ s₁, transition_artifact_state s aid ns = Except.ok s₁ →
      (ns = "published" → s₁.published_count = s.published_count + 1) ∧
      (ns ≠ "published" → s₁.published_count = s.published_count)) ∧
    (∀ (H : String → String) (op : Op) (s₂ : EngineState),
      s₂.published_count ≤ (runOp H s₂ op).published_count) ∧
    ((audit (runOps (fun _ => "") initState
        [Op.setConsent "u" true none none "t",
         Op.ingest "u" true none "a1" ⟨2026, 1, 1⟩,
         Op.ingest "u" true none "a2" ⟨2026, 1, 1⟩,
         Op.ingest "u" true none "a3" ⟨2026, 1, 1⟩,
         Op.transitionArtifactState "a1" "used",
         Op.transitionArtifactState "a1" "published",
         Op.transitionArtifactState "a2" "used",
         Op.transitionArtifactState "a2" "published",
         Op.transitionArtifactState "a2" "archived"]) ⟨2026, 1, 1⟩).rim6 =
      6667 / 10000) := by
  refine ⟨?_, ?_, ?_⟩
  · intro s₁ h
    unfold transition_artifact_state at h
    split at h
    · cases h
    · split at h
      · cases h
      · split at h
        · rename_i hpub
          injection h with h
          subst h
          exact ⟨fun _ => rfl, fun hne => absurd hpub hne⟩
        · rename_i hpub
          injection h with h
          subst h
          exact ⟨fun hp => absurd hp hpub, fun _ => rfl⟩
  · intro H op s₂
    cases op with
    | registerUser uid =>
      exact le_of_eq ((register_user_frame s₂ uid).2.2.2.2.2).symm
    | setConsent uid e ex sc now =>
      exact le_of_eq ((set_consent_frame H s₂ uid e ex sc now).2.2.2.2.2).symm
    | revokeConsent uid now =>
      exact le_of_eq ((revoke_consent_frame H s₂ uid now).2.2.2.2.2).symm
    | ingest uid e req aid' today =>
      exact le_of_eq ((ingest_frame s₂ uid e req aid' today).2.2.2.2.2).symm
    | transitionArtifactState aid' ns' =>
      simp only [runOp]
      cases htr : transition_artifact_state s₂ aid' ns' with
      | error e => exact le_rfl
      | ok s₁ =>
        dsimp only
        rcases (transition_ok_fields s₂ aid' ns' s₁ htr).2.2.2.2.2.2.2.2 with h | h <;>
          omega
    | logReuse aid' d now =>
      exact le_of_eq ((log_reuse_frame s₂ aid' d now).2.2.2.2.2.2.1).symm
    | recordDerivative aid' uid =>
      exact le_of_eq ((record_derivative_frame s₂ aid' uid).2.2.2.2.2.2.2).symm
  · have hfin : runOps (fun _ => "") initState
        [Op.setConsent "u" true none none "t",
         Op.ingest "u" true none "a1" ⟨2026, 1, 1⟩,
         Op.ingest "u" true none "a2" ⟨2026, 1, 1⟩,
         Op.ingest "u" true none "a3" ⟨2026, 1, 1⟩,
         Op.transitionArtifactState "a1" "used",
         Op.transitionArtifactState "a1" "published",
         Op.transitionArtifactState "a2" "used",
         Op.transitionArtifactState "a2" "published",
         Op.transitionArtifactState "a2" "archived"] =
        ⟨[("u", ⟨true, none, []⟩)],
          [("u", [⟨"t", "", ⟨true, none, []⟩⟩])],
          [⟨"", "t"⟩],
          [("a1", ["u"]), ("a2", ["u"]), ("a3", ["u"])],
          [("a1", "published"), ("a2", "archived"), ("a3", "generated")],
          [], ["u"], 3, 2⟩ := rfl
    rw [hfin, audit_rim6]
    norm_num [round4, round_eq]

/-- Witness for C5: a `used → published` transition bumps the counter from
zero to one. -/
theorem c5_witness :
    (⟨[], [], [], [], [("a1", "published")], [], [], 1, 1⟩ :
      EngineState).published_count =
      (⟨[], [], [], [], [("a1", "used")], [], [], 1, 0⟩ :
        EngineState).published_count + 1 :=
  ((c5_published_count ⟨[], [], [], [], [("a1", "used")], [], [], 1, 0⟩
      "a1" "published").1
    ⟨[], [], [], [], [("a1", "published")], [], [], 1, 1⟩ (by decide)).1 rfl

theorem sumLens_setKey_nil {α : Type} (m : List (String × List α)) (k : String)
    (h : lookupKey m k = none) :
    ((setKey m k ([] : List α)).map (fun p => p.2.length)).sum =
      (m.map (fun p => p.2.length)).sum := by
  induction m with
  | nil => simp [setKey]
  | cons p rest ih =>
    obtain ⟨k₁, v₁⟩ := p
    rw [lookupKey] at h
    by_cases hk : k₁ = k
    · rw [if_pos hk] at h
      cases h
    · rw [if_neg hk] at h
      simp [setKey, hk, ih h]

theorem sumLens_setKey_append {α : Type} (m : List (String × List α)) (k : String)
    (a : α) :
    ((setKey m k ((lookupKey m k).getD [] ++ [a])).map
      (fun p => p.2.length)).sum =
      (m.map (fun p => p.2.length)).sum + 1 := by
  induction m with
  | nil => simp [setKey, lookupKey]
  | cons p rest ih =>
    obtain ⟨k₁, v₁⟩ := p
    by_cases hk : k₁ = k
    · subst hk
      simp [setKey, lookupKey]
      omega
    · simp [setKey, lookupKey, hk] at ih ⊢
      omega

theorem register_total (s : EngineState) (uid : String) :
    totalReceipts (register_user s uid) = totalReceipts s := by
  rw [totalReceipts, totalReceipts, register_user_receipts]
  cases hpre : lookupKey s.receipts uid with
  | some l => rfl
  | none => exact sumLens_setKey_nil s.receipts uid hpre

theorem generate_anchor_total (H : String → String) (s : EngineState) (uid now : String) :
    (generate_consent_receipt H s uid now).1.receipt_anchor.length =
      s.receipt_anchor.length + 1 ∧
    totalReceipts (generate_consent_receipt H s uid now).1 = totalReceipts s + 1 := by
  constructor
  · rw [(generate_fields H s uid now).2.2.2.2.2.2.2.2]
    simp
  · rw [totalReceipts, (generate_fields H s uid now).2.2.2.2.2.2.2.1]
    exact sumLens_setKey_append s.receipts uid (freshRecord H s uid now)

/-- Invariant: the global anchor is exactly as long as all receipt
histories combined. -/
def anchorInv (s : EngineState) : Prop :=
  s.receipt_anchor.length = totalReceipts s

theorem anchorInv_step (H : String → String) (s : EngineState) (op : Op)
    (h : anchorInv s) : anchorInv (runOp H s op) := by
  cases op with
  | registerUser uid =>
    show (register_user s uid).receipt_anchor.length =
      totalReceipts (register_user s uid)
    rw [(register_user_frame s uid).1, register_total]
    exact h
  | setConsent uid e ex sc now =>
    show anchorInv (set_consent H s uid e ex sc now).1
    unfold set_consent
    dsimp only
    rw [anchorInv, (generate_anchor_total H _ uid now).1,
      (generate_anchor_total H _ uid now).2]
    have h1 : (register_user s uid).receipt_anchor.length =
        totalReceipts (register_user s uid) := by
      rw [(register_user_frame s uid).1, register_total]
      exact h
    exact congrArg (· + 1) h1
  | revokeConsent uid now =>
    show anchorInv (revoke_consent H s uid now).1
    unfold revoke_consent
    dsimp only
    have h1 : (register_user s uid).receipt_anchor.length =
        totalReceipts (register_user s uid) := by
      rw [(register_user_frame s uid).1, register_total]
      exact h
    split
    · rw [anchorInv, (generate_anchor_total H _ uid now).1,
        (generate_anchor_total H _ uid now).2]
      exact congrArg (· + 1) h1
    · rw [anchorInv, (generate_anchor_total H _ uid now).1,
        (generate_anchor_total H _ uid now).2]
      exact congrArg (· + 1) h1
  | ingest uid e req aid today =>
    show (ingest s uid e req aid today).1.receipt_anchor.length =
      totalReceipts (ingest s uid e req aid today).1
    rw [(ingest_frame s uid e req aid today).2.2.1, totalReceipts,
      (ingest_frame s uid e req aid today).2.1]
    show s.receipt_anchor.length = totalReceipts (register_user s uid)
    rw [register_total]
    exact h
  | transitionArtifactState aid ns =>
    cases htr : transition_artifact_state s aid ns with
    | error e =>
      show anchorInv (match transition_artifact_state s aid ns with
        | Except.ok s₁ => s₁
        | Except.error _ => s)
      rw [htr]
      exact h
    | ok s₁ =>
      show anchorInv (match transition_artifact_state s aid ns with
        | Except.ok s₁ => s₁
        | Except.error _ => s)
      rw [htr]
      show s₁.receipt_anchor.length = totalReceipts s₁
      rw [(transition_ok_fields s aid ns s₁ htr).2.2.1, totalReceipts,
        (transition_ok_fields s aid ns s₁ htr).2.1]
      exact h
  | logReuse aid d now =>
    show (log_reuse s aid d now).receipt_anchor.length =
      totalReceipts (log_reuse s aid d now)
    rw [(log_reuse_frame s aid d now).2.2.1, totalReceipts,
      (log_reuse_frame s aid d now).2.1]
    exact h
  | recordDerivative aid uid =>
    show (record_derivative s aid uid).receipt_anchor.length =
      totalReceipts (record_derivative s aid uid)
    rw [(record_derivative_frame s aid uid).2.2.1, totalReceipts,
      (record_derivative_frame s aid uid).2.1]
    exact h

theorem anchorInv_runOps (H : String → String) :
    ∀ (ops : List Op) (s : EngineState), anchorInv s → anchorInv (runOps H s ops)
  | [], _, hs => hs
  | op :: rest, s, hs =>
    anchorInv_runOps H rest (runOp H s op) (anchorInv_step H s op hs)

theorem generate_receipts_lookup (H : String → String) (s : EngineState)
    (uid now : String) :
    ((lookupKey (generate_consent_receipt H s uid now).1.receipts uid).getD
      []).length =
      ((lookupKey s.receipts uid).getD []).length + 1 := by
  rw [(generate_fields H s uid now).2.2.2.2.2.2.2.1, lookupKey_setKey, if_pos rfl]
  simp

/-- C2: every `set_consent`/`revoke_consent` call appends exactly one
record to that user's receipt history and exactly one entry to the global
anchor; in every state reachable from a fresh store the anchor length
equals the sum of all users' receipt-history lengths, so `audit`'s
`anchored_receipts` always equals its `total_receipts_issued`. -/
theorem c2_receipts_anchor :
    (∀ (H : String → String) (s : EngineState) (uid : String) (e : Bool)
        (ex : Option String) (sc : Option (List String)) (now : String),
      ((lookupKey (set_consent H s uid e ex sc now).1.receipts uid).getD
        []).length = ((lookupKey s.receipts uid).getD []).length + 1 ∧
      (set_consent H s uid e ex sc now).1.receipt_anchor.length =
        s.receipt_anchor.length + 1) ∧
    (∀ (H : String → String) (s : EngineState) (uid now : String),
      ((lookupKey (revoke_consent H s uid now).1.receipts uid).getD
        []).length = ((lookupKey s.receipts uid).getD []).length + 1 ∧
      (revoke_consent H s uid now).1.receipt_anchor.length =
        s.receipt_anchor.length + 1) ∧
    (∀ (H : String → String) (ops : List Op) (today : Date),
      (audit (runOps H initState ops) today).anchored_receipts =
        (audit (runOps H initState ops) today).total_receipts_issued) := by
  have hcall : ∀ (H : String → String) (s : EngineState) (uid now : String),
      ((lookupKey (generate_consent_receipt H s uid now).1.receipts uid).getD
        []).length = ((lookupKey s.receipts uid).getD []).length + 1 ∧
      (generate_consent_receipt H s uid now).1.receipt_anchor.length =
        s.receipt_anchor.length + 1 :=
    fun H s uid now =>
      ⟨generate_receipts_lookup H s uid now, (generate_anchor_total H s uid now).1⟩
  refine ⟨?_, ?_, ?_⟩
  · intro H s uid e ex sc now
    unfold set_consent
    dsimp only
    constructor
    · rw [(hcall H _ uid now).1]
      show ((lookupKey (register_user s uid).receipts uid).getD []).length + 1 = _
      rw [register_user_receipts_lookup]
      rfl
    · rw [(hcall H _ uid now).2]
      show (register_user s uid).receipt_anchor.length + 1 = _
      rw [(register_user_frame s uid).1]
  · intro H s uid now
    unfold revoke_consent
    dsimp only
    split <;>
    · constructor
      · rw [(hcall H _ uid now).1]
        show ((lookupKey (register_user s uid).receipts uid).getD []).length + 1 = _
        rw [register_user_receipts_lookup]
        rfl
      · rw [(hcall H _ uid now).2]
        show (register_user s uid).receipt_anchor.length + 1 = _
        rw [(register_user_frame s uid).1]
  · intro H ops today
    exact anchorInv_runOps H ops initState rfl

/-- Invariant: every stored receipt is the digest of its own user id and
stored snapshot under the stable encoding. -/
def receiptsValid (H : String → String) (s : EngineState) : Prop :=
  ∀ uid rec, rec ∈ (lookupKey s.receipts uid).getD [] →
    rec.receipt = H (receiptPayload uid rec.snapshot)

theorem register_receipts_lookup_ne (s : EngineState) (uid u : String)
    (hu : uid ≠ u) :
    lookupKey (register_user s uid).receipts u = lookupKey s.receipts u := by
  rw [register_user_receipts]
  cases hpre : lookupKey s.receipts uid with
  | some l => rfl
  | none =>
    rw [lookupKey_setKey]
    simp [hu]

theorem receiptsValid_of_eq (H : String → String) (s t : EngineState)
    (hr : t.receipts = s.receipts) (hv : receiptsValid H s) : receiptsValid H t := by
  intro u rec hmem
  rw [hr] at hmem
  exact hv u rec hmem

theorem receiptsValid_register (H : String → String) (s : EngineState) (uid : String)
    (h : receiptsValid H s) : receiptsValid H (register_user s uid) := by
  intro u rec hmem
  by_cases hu : uid = u
  · subst hu
    rw [register_user_receipts_lookup] at hmem
    exact h uid rec hmem
  · rw [register_receipts_lookup_ne s uid u hu] at hmem
    exact h u rec hmem

theorem receiptsValid_generate (H : String → String) (s : EngineState)
    (uid now : String) (h : receiptsValid H s) :
    receiptsValid H (generate_consent_receipt H s uid now).1 := by
  intro u rec hmem
  rw [(generate_fields H s uid now).2.2.2.2.2.2.2.1, lookupKey_setKey] at hmem
  by_cases hu : uid = u
  · subst hu
    rw [if_pos rfl] at hmem
    simp only [Option.getD_some, List.mem_append, List.mem_singleton] at hmem
    rcases hmem with hold | hfresh
    · exact h uid rec hold
    · subst hfresh
      rfl
  · rw [if_neg hu] at hmem
    exact h u rec hmem

theorem receiptsValid_step (H : String → String) (s : EngineState) (op : Op)
    (h : receiptsValid H s) : receiptsValid H (runOp H s op) := by
  cases op with
  | registerUser uid => exact receiptsValid_register H s uid h
  | setConsent uid e ex sc now =>
    show receiptsValid H (set_consent H s uid e ex sc now).1
    unfold set_consent
    dsimp only
    exact receiptsValid_generate H _ uid now (receiptsValid_register H s uid h)
  | revokeConsent uid now =>
    show receiptsValid H (revoke_consent H s uid now).1
    unfold revoke_consent
    dsimp only
    split <;> exact receiptsValid_generate H _ uid now (receiptsValid_register H s uid h)
  | ingest uid e req aid today =>
    exact receiptsValid_of_eq H (register_user s uid) _
      (ingest_frame s uid e req aid today).2.1 (receiptsValid_register H s uid h)
  | transitionArtifactState aid ns =>
    show receiptsValid H (match transition_artifact_state s aid ns with
      | Except.ok s₁ => s₁
      | Except.error _ => s)
    cases htr : transition_artifact_state s aid ns with
    | error e => exact h
    | ok s₁ =>
      exact receiptsValid_of_eq H s s₁ (transition_ok_fields s aid ns s₁ htr).2.1 h
  | logReuse aid d now =>
    exact receiptsValid_of_eq H s _ (log_reuse_frame s aid d now).2.1 h
  | recordDerivative aid uid =>
    exact receiptsValid_of_eq H s _ (record_derivative_frame s aid uid).2.1 h

theorem receiptsValid_runOps (H : String → String) :
    ∀ (ops : List Op) (s : EngineState),
      receiptsValid H s → receiptsValid H (runOps H s ops)
  | [], _, hs => hs
  | op :: rest, s, hs =>
    receiptsValid_runOps H rest (runOp H s op) (receiptsValid_step H s op hs)

/-- C6: in every reachable state, every stored ReceiptRecord's digest is
re-derivable as the hash of the user id and the stable textual encoding of
the record's stored snapshot — identical (user id, ConsentState) pairs
always hash identically, since the digest is a function of exactly those. -/
theorem c6_receipt_roundtrip (H : String → String) (ops : List Op) (uid : String)
    (rec : ReceiptRecord)
    (hmem : rec ∈ (lookupKey (runOps H initState ops).receipts uid).getD []) :
    rec.receipt = H (receiptPayload uid rec.snapshot) :=
  receiptsValid_runOps H ops initState (fun _ rec₁ hmem₁ => absurd hmem₁ (by simp [initState, lookupKey]))
    uid rec hmem

/-- Witness for C6: with the identity function standing in for sha256, the
single receipt produced by one `set_consent` call is exactly the encoded
payload of its own snapshot. -/
theorem c6_witness :
    (⟨"t",
      "u|\x7b\x27extractive\x27: True, \x27expires\x27: None, \x27scope\x27: []\x7d",
      ⟨true, none, []⟩⟩ : ReceiptRecord).receipt =
      (fun p => p)
        (receiptPayload "u" (⟨true, none, []⟩ : ConsentState)) :=
  c6_receipt_roundtrip (fun p => p) [Op.setConsent "u" true none none "t"] "u"
    ⟨"t",
      "u|\x7b\x27extractive\x27: True, \x27expires\x27: None, \x27scope\x27: []\x7d",
      ⟨true, none, []⟩⟩
    (by decide)

/-- Invariant: the known-user set, the consent dict's key set and the
receipts dict's key set all coincide. -/
def domainsInv (s : EngineState) : Prop :=
  ∀ u, (u ∈ s.known_users ↔ (lookupKey s.consent u).isSome = true) ∧
    (u ∈ s.known_users ↔ (lookupKey s.receipts u).isSome = true)

theorem register_consent_lookup_ne (s : EngineState) (uid u : String)
    (hne : uid ≠ u) :
    lookupKey (register_user s uid).consent u = lookupKey s.consent u := by
  rw [register_user_consent]
  cases hpre : lookupKey s.consent uid with
  | some c => rfl
  | none =>
    rw [lookupKey_setKey]
    simp [hne]

theorem inv_setKey {β : Type} (l : List String) (m : List (String × β))
    (uid u : String) (v : β) (hmem : uid ∈ l)
    (h : u ∈ l ↔ (lookupKey m u).isSome = true) :
    (u ∈ l ↔ (lookupKey (setKey m uid v) u).isSome = true) := by
  rw [lookupKey_setKey]
  by_cases hu : uid = u
  · subst hu
    simp [hmem]
  · simp [hu, h]

theorem uid_mem_register (s : EngineState) (uid : String) :
    uid ∈ (register_user s uid).known_users := by
  rw [register_user_known]
  exact (mem_addUser _ _ _).mpr (Or.inr rfl)

theorem domainsInv_register (s : EngineState) (uid : String) (h : domainsInv s) :
    domainsInv (register_user s uid) := by
  intro u
  constructor
  · show u ∈ (register_user s uid).known_users ↔
      (lookupKey (register_user s uid).consent u).isSome = true
    by_cases hu : u = uid
    · subst hu
      rw [register_user_consent_lookup]
      simp [uid_mem_register s u]
    · rw [register_user_known, mem_addUser,
        register_consent_lookup_ne s uid u (fun he => hu he.symm)]
      simp [hu, (h u).1]
  · show u ∈ (register_user s uid).known_users ↔
      (lookupKey (register_user s uid).receipts u).isSome = true
    by_cases hu : u = uid
    · subst hu
      rw [register_user_receipts_lookup]
      simp [uid_mem_register s u]
    · rw [register_user_known, mem_addUser,
        register_receipts_lookup_ne s uid u (fun he => hu he.symm)]
      simp [hu, (h u).2]

theorem domainsInv_generate (H : String → String) (s : EngineState)
    (uid now : String) (h : domainsInv s) (hmem : uid ∈ s.known_users) :
    domainsInv (generate_consent_receipt H s uid now).1 := by
  intro u
  constructor
  · show u ∈ s.known_users ↔ (lookupKey s.consent u).isSome = true
    exact (h u).1
  · show u ∈ s.known_users ↔
      (lookupKey (setKey s.receipts uid
        ((lookupKey s.receipts uid).getD [] ++ [freshRecord H s uid now])) u).isSome =
        true
    exact inv_setKey s.known_users s.receipts uid u _ hmem (h u).2

theorem domainsInv_step (H : String → String) (s : EngineState) (op : Op)
    (h : domainsInv s) : domainsInv (runOp H s op) := by
  cases op with
  | registerUser uid => exact domainsInv_register s uid h
  | setConsent uid e ex sc now =>
    show domainsInv (set_consent H s uid e ex sc now).1
    unfold set_consent
    dsimp only
    apply domainsInv_generate
    · intro u
      exact ⟨inv_setKey _ _ uid u _ (uid_mem_register s uid)
          ((domainsInv_register s uid h) u).1,
        ((domainsInv_register s uid h) u).2⟩
    · exact uid_mem_register s uid
  | revokeConsent uid now =>
    show domainsInv (revoke_consent H s uid now).1
    unfold revoke_consent
    dsimp only
    split
    · apply domainsInv_generate
      · intro u
        exact ⟨inv_setKey _ _ uid u _ (uid_mem_register s uid)
            ((domainsInv_register s uid h) u).1,
          ((domainsInv_register s uid h) u).2⟩
      · exact uid_mem_register s uid
    · exact domainsInv_generate H _ uid now (domainsInv_register s uid h)
        (uid_mem_register s uid)
  | ingest uid e req aid today =>
    intro u
    have ht := domainsInv_register s uid h u
    have hf := ingest_frame s uid e req aid today
    constructor
    · show u ∈ (ingest s uid e req aid today).1.known_users ↔
        (lookupKey (ingest s uid e req aid today).1.consent u).isSome = true
      rw [hf.2.2.2.2.1, hf.1]
      exact ht.1
    · show u ∈ (ingest s uid e req aid today).1.known_users ↔
        (lookupKey (ingest s uid e req aid today).1.receipts u).isSome = true
      rw [hf.2.2.2.2.1, hf.2.1]
      exact ht.2
  | transitionArtifactState aid ns =>
    show domainsInv (match transition_artifact_state s aid ns with
      | Except.ok s₁ => s₁
      | Except.error _ => s)
    cases htr : transition_artifact_state s aid ns with
    | error e => exact h
    | ok s₁ =>
      intro u
      have hf := transition_ok_fields s aid ns s₁ htr
      constructor
      · show u ∈ s₁.known_users ↔ (lookupKey s₁.consent u).isSome = true
        rw [hf.2.2.2.2.2.1, hf.1]
        exact (h u).1
      · show u ∈ s₁.known_users ↔ (lookupKey s₁.receipts u).isSome = true
        rw [hf.2.2.2.2.2.1, hf.2.1]
        exact (h u).2
  | logReuse aid d now =>
    intro u
    have hf := log_reuse_frame s aid d now
    constructor
    · show u ∈ (log_reuse s aid d now).known_users ↔
        (lookupKey (log_reuse s aid d now).consent u).isSome = true
      rw [hf.2.2.2.2.1, hf.1]
      exact (h u).1
    · show u ∈ (log_reuse s aid d now).known_users ↔
        (lookupKey (log_reuse s aid d now).receipts u).isSome = true
      rw [hf.2.2.2.2.1, hf.2.1]
      exact (h u).2
  | recordDerivative aid uid =>
    intro u
    have hf := record_derivative_frame s aid uid
    constructor
    · show u ∈ (record_derivative s aid uid).known_users ↔
        (lookupKey (record_derivative s aid uid).consent u).isSome = true
      rw [hf.2.2.2.2.2.1, hf.1]
      exact (h u).1
    · show u ∈ (record_derivative s aid uid).known_users ↔
        (lookupKey (record_derivative s aid uid).receipts u).isSome = true
      rw [hf.2.2.2.2.2.1, hf.2.1]
      exact (h u).2

theorem domainsInv_runOps (H : String → String) :
    ∀ (ops : List Op) (s : EngineState), domainsInv s → domainsInv (runOps H s ops)
  | [], _, hs => hs
  | op :: rest, s, hs =>
    domainsInv_runOps H rest (runOp H s op) (domainsInv_step H s op hs)

theorem is_active_lookup (s : EngineState) (today : Date) (u : String)
    (h : is_active_extractive s today u = true) :
    (lookupKey s.consent u).isSome = true := by
  rw [is_active_extractive] at h
  cases hl : lookupKey s.consent u with
  | none =>
    rw [hl] at h
    cases h
  | some c => rfl

/-- C10: in every reachable state, `known_users` equals the key set of the
consent dict and the key set of the receipts dict, and an active-extractive
user always has a consent entry, so `audit`'s direct consent lookups in the
RIM-4/RIM-5 counts cannot fail. -/
theorem c10_domains_inv (H : String → String) (ops : List Op) (u : String)
    (today : Date) :
    ((u ∈ (runOps H initState ops).known_users ↔
        (lookupKey (runOps H initState ops).consent u).isSome = true) ∧
      (u ∈ (runOps H initState ops).known_users ↔
        (lookupKey (runOps H initState ops).receipts u).isSome = true)) ∧
    (is_active_extractive (runOps H initState ops) today u = true →
      (lookupKey (runOps H initState ops).consent u).isSome = true) :=
  ⟨domainsInv_runOps H ops initState
      (fun _ => ⟨by simp [initState, lookupKey], by simp [initState, lookupKey]⟩) u,
    is_active_lookup (runOps H initState ops) today u⟩

/-- Witness for C10: after one `set_consent`, the consenting user is known,
has a consent entry, and the active-extractive lookup is populated. -/
theorem c10_witness :
    (lookupKey
      (runOps (fun p => p) initState
        [Op.setConsent "u" true none none "t"]).consent "u").isSome = true :=
  (c10_domains_inv (fun p => p) [Op.setConsent "u" true none none "t"] "u"
    ⟨2026, 1, 1⟩).2 (by decide)

end ReciprocalTruth
